import Mathlib

/-!
Verification of the MySQL user/privilege administration page
(`pages/14_Users.py`).

The page's admin core is shallowly embedded here: the two identifier
sanitizers (`sanitize_user`, `sanitize_host`), the SQL statement texts the
page builds by string interpolation, the single-statement executor
`exec_admin` (execute, commit on success, roll back and return the error
text on failure), and the four form handlers (create user, change
password, grant/revoke, drop user) plus the `get_grants` introspection
statement.  The backing MySQL store is abstracted as a `StoreModel`: a
function from a committed state and a statement to either a new committed
state with result rows or a store-level error string.  Each handler is a
pure function from its form inputs and the store to the final store
state, the ordered trace of statements it sent (with a per-statement
success flag), and the list of UI messages it displayed.
-/

namespace UsersPage

/-- One SQL statement: its text and its bound-parameter tuple, as passed to
`cur.execute(sql, params)`. -/
structure Stmt where
  text : String
  params : List String
deriving Repr, DecidableEq

/-- Result rows as returned by `cursor.fetchall()`. -/
abbrev Rows := List (List String)

/-- Abstract backing store: executing one statement on a committed state
either commits a new state and yields rows, or raises a store-level error
carrying an error message. -/
structure StoreModel (σ : Type) where
  exec : σ → Stmt → Except String (σ × Rows)

/-- Characters kept by the username allow-list `[A-Za-z0-9_]`
(`re.sub(r"[^a-zA-Z0-9_]", "", s)` removes exactly the others). -/
def isUserChar (c : Char) : Bool :=
  ('a' ≤ c && c ≤ 'z') || ('A' ≤ c && c ≤ 'Z') || ('0' ≤ c && c ≤ '9') || c == '_'

/-- Characters kept by the host allow-list `[A-Za-z0-9_%.:-]`. -/
def isHostChar (c : Char) : Bool :=
  isUserChar c || c == '%' || c == '.' || c == ':' || c == '-'

/-- `sanitize_user` (line 20): strip every character outside `[A-Za-z0-9_]`. -/
def sanitize_user (s : String) : String := String.mk (s.data.filter isUserChar)

/-- `sanitize_host` (line 24): strip every character outside `[A-Za-z0-9_%.:-]`. -/
def sanitize_host (s : String) : String := String.mk (s.data.filter isHostChar)

/-- Python `str.startswith`. -/
def startswith (s p : String) : Bool := p.data.isPrefixOf s.data

/-- Python `sep.join(xs)`. -/
def strJoin (sep : String) : List String → String
  | [] => ""
  | [x] => x
  | x :: y :: xs => x ++ sep ++ strJoin sep (y :: xs)

/-- Host value actually used by every handler: Python `sanitize_host(x or "%")`,
i.e. an empty raw host is replaced by `"%"` before sanitization. -/
def effective_host (raw : String) : String :=
  sanitize_host (if raw = "" then "%" else raw)

/-- Statement text of line 122. -/
def createUserSql (u h : String) : String :=
  "CREATE USER `" ++ u ++ "`@'" ++ h ++ "' IDENTIFIED BY %s;"

/-- Statement text of line 168. -/
def alterUserSql (u h : String) : String :=
  "ALTER USER `" ++ u ++ "`@'" ++ h ++ "' IDENTIFIED BY %s;"

/-- Statement text of lines 130/133/136/202. -/
def grantSql (plist schema u h : String) : String :=
  "GRANT " ++ plist ++ " ON `" ++ schema ++ "`.* TO `" ++ u ++ "`@'" ++ h ++ "';"

/-- Statement text of line 204. -/
def revokeSql (plist schema u h : String) : String :=
  "REVOKE " ++ plist ++ " ON `" ++ schema ++ "`.* FROM `" ++ u ++ "`@'" ++ h ++ "';"

/-- Statement text of line 228. -/
def dropUserSql (u h : String) : String :=
  "DROP USER `" ++ u ++ "`@'" ++ h ++ "';"

/-- The cache-invalidation directive sent on lines 144/172/208/232. -/
def flushStmt : Stmt := ⟨"FLUSH PRIVILEGES;", []⟩

/-- The CREATE USER statement with the secret as the single bound parameter. -/
def createUserStmt (u h pw : String) : Stmt := ⟨createUserSql u h, [pw]⟩

/-- The ALTER USER statement with the secret as the single bound parameter. -/
def alterUserStmt (u h pw : String) : Stmt := ⟨alterUserSql u h, [pw]⟩

/-- Statement text built by `get_grants` (line 56): the raw `user` and `host`
arguments are interpolated directly; `get_grants` does not call the
sanitizers. -/
def get_grants_sql (user host : String) : String :=
  "SHOW GRANTS FOR `" ++ user ++ "`@'" ++ host ++ "';"

/-- The statement chosen by the grant/revoke handler (lines 201-204):
`GRANT ... TO` when the action is `"GRANT"`, else `REVOKE ... FROM`. -/
def grantRevokeSql (action plist schema u h : String) : String :=
  if action = "GRANT" then grantSql plist schema u h else revokeSql plist schema u h

/-- The grant statement attached to each preset (lines 129-138): `Read-only`,
`Read/Write` and `Admin` prefixes select a fixed privilege list, anything
else (the `"None"` choice) produces no grant. -/
def presetGrantSql (preset schema u h : String) : Option String :=
  if startswith preset "Read-only" then some (grantSql "SELECT" schema u h)
  else if startswith preset "Read/Write" then
    some (grantSql "SELECT, INSERT, UPDATE, DELETE, EXECUTE" schema u h)
  else if startswith preset "Admin" then some (grantSql "ALL PRIVILEGES" schema u h)
  else none

/-- `exec_admin` (lines 28-41): execute one admin statement in its own
connection/transaction; on success fetch rows (when asked to) and commit
the new state, on a store error roll back (keep the prior committed state)
and return the error text. -/
def exec_admin {σ} (M : StoreModel σ) (st : σ) (s : Stmt) (fetch : Bool) :
    σ × Option Rows × Option String :=
  match M.exec st s with
  | .ok (st', rows) => (st', (if fetch then some rows else none), none)
  | .error e => (st, none, some e)

/-- One record of a handler's execution trace: the statement sent to the
store and whether it succeeded. -/
structure SentRec where
  stmt : Stmt
  ok : Bool
deriving Repr, DecidableEq

/-- Store state together with the ordered trace of statements sent so far. -/
structure ExecState (σ : Type) where
  store : σ
  sent : List SentRec
deriving Repr

/-- Run one statement through `exec_admin` (handlers always pass
`fetch=False`), recording it in the trace. -/
def runA {σ} (M : StoreModel σ) (es : ExecState σ) (s : Stmt) :
    ExecState σ × Option String :=
  let r := exec_admin M es.store s false
  (⟨r.1, es.sent ++ [⟨s, r.2.2.isNone⟩]⟩, r.2.2)

/-- Trace record of the fire-and-forget `FLUSH PRIVILEGES` call from state `st`. -/
def flushRec {σ} (M : StoreModel σ) (st : σ) : SentRec :=
  ⟨flushStmt, (exec_admin M st flushStmt false).2.2.isNone⟩

/-- Store state after the fire-and-forget `FLUSH PRIVILEGES` call from `st`
(unchanged when the flush itself fails, since `exec_admin` rolls back). -/
def flushSt {σ} (M : StoreModel σ) (st : σ) : σ :=
  (exec_admin M st flushStmt false).1

/-- A UI message: `st.error` or `st.success`. -/
inductive UiMsg where
  | error (msg : String) : UiMsg
  | success (msg : String) : UiMsg
deriving Repr, DecidableEq

/-- Create-user form handler (lines 115-147): sanitize the identifiers,
reject empty username or password, run CREATE USER with the password
bound, then the preset grant when the preset selects one, then the flush
directive; each stage reports through `st.error`/`st.success`. -/
def createUserHandler {σ} (M : StoreModel σ) (st0 : σ)
    (new_user new_host new_password preset schema : String) :
    ExecState σ × List UiMsg :=
  if sanitize_user new_user = "" ∨ new_password = "" then
    (⟨st0, []⟩, [.error "Username and password are required."])
  else
    match runA M ⟨st0, []⟩
        (createUserStmt (sanitize_user new_user) (effective_host new_host) new_password) with
    | (es1, some err) => (es1, [.error ("CREATE USER failed: " ++ err)])
    | (es1, none) =>
      match presetGrantSql preset schema (sanitize_user new_user) (effective_host new_host) with
      | some gsql =>
        match runA M es1 ⟨gsql, []⟩ with
        | (es2, some err) =>
          (es2, [.success ("User `" ++ sanitize_user new_user ++ "`@'" ++
                    effective_host new_host ++ "' created."),
                 .error ("Grant failed: " ++ err)])
        | (es2, none) =>
          ((runA M es2 flushStmt).1,
           [.success ("User `" ++ sanitize_user new_user ++ "`@'" ++
              effective_host new_host ++ "' created."),
            .success ("Preset '" ++ preset ++ "' applied on `" ++ schema ++ "`.*")])
      | none =>
        ((runA M es1 flushStmt).1,
         [.success ("User `" ++ sanitize_user new_user ++ "`@'" ++
            effective_host new_host ++ "' created."),
          .success ("Preset '" ++ preset ++ "' applied on `" ++ schema ++ "`.*")])

/-- Change-password handler (lines 162-173). -/
def changePasswordHandler {σ} (M : StoreModel σ) (st0 : σ)
    (ch_user ch_host ch_pass : String) : ExecState σ × List UiMsg :=
  if sanitize_user ch_user = "" ∨ ch_pass = "" then
    (⟨st0, []⟩, [.error "User and new password are required."])
  else
    match runA M ⟨st0, []⟩
        (alterUserStmt (sanitize_user ch_user) (effective_host ch_host) ch_pass) with
    | (es1, some err) => (es1, [.error ("ALTER USER failed: " ++ err)])
    | (es1, none) =>
      ((runA M es1 flushStmt).1,
       [.success ("Password updated for `" ++ sanitize_user ch_user ++ "`@'" ++
          effective_host ch_host ++ "'.")])

/-- Grant/revoke handler (lines 194-209).  The success message reproduces the
source literally, including the stray backtick after the host. -/
def grantRevokeHandler {σ} (M : StoreModel σ) (st0 : σ)
    (gr_user gr_host action : String) (privs : List String) (schema : String) :
    ExecState σ × List UiMsg :=
  if sanitize_user gr_user = "" ∨ privs = [] then
    (⟨st0, []⟩, [.error "User and at least one privilege are required."])
  else
    match runA M ⟨st0, []⟩
        ⟨grantRevokeSql action (strJoin ", " privs) schema
          (sanitize_user gr_user) (effective_host gr_host), []⟩ with
    | (es1, some err) => (es1, [.error (action ++ " failed: " ++ err)])
    | (es1, none) =>
      ((runA M es1 flushStmt).1,
       [.success (action ++ " successful for `" ++ sanitize_user gr_user ++ "`@'" ++
          effective_host gr_host ++ "` on `" ++ schema ++ "`.*")])

/-- Drop-user handler (lines 222-234). -/
def dropUserHandler {σ} (M : StoreModel σ) (st0 : σ)
    (del_user del_host : String) : ExecState σ × List UiMsg :=
  if sanitize_user del_user = "" then (⟨st0, []⟩, [.error "User is required."])
  else
    match runA M ⟨st0, []⟩
        ⟨dropUserSql (sanitize_user del_user) (effective_host del_host), []⟩ with
    | (es1, some err) => (es1, [.error ("DROP USER failed: " ++ err)])
    | (es1, none) =>
      ((runA M es1 flushStmt).1,
       [.success ("User `" ++ sanitize_user del_user ++ "`@'" ++
          effective_host del_host ++ "' dropped.")])

/-- A store that accepts every statement, logging the statements committed. -/
def logStore : StoreModel (List Stmt) :=
  ⟨fun st s => .ok (st ++ [s], [])⟩

/-- A store that rejects every GRANT statement and accepts everything else. -/
def failOnGrantStore : StoreModel (List Stmt) :=
  ⟨fun st s => if startswith s.text "GRANT" then .error "grant denied"
               else .ok (st ++ [s], [])⟩

/-- A store on which every statement raises. -/
def failStore : StoreModel (List Stmt) := ⟨fun _ _ => .error "boom"⟩

/-! Helper lemmas about `runA` and statement texts. -/

theorem runA_error {σ} (M : StoreModel σ) (st : σ) (tr : List SentRec) (s : Stmt)
    (e : String) (h : M.exec st s = .error e) :
    runA M ⟨st, tr⟩ s = (⟨st, tr ++ [⟨s, false⟩]⟩, some e) := by
  simp [runA, exec_admin, h]

theorem runA_ok {σ} (M : StoreModel σ) (st : σ) (tr : List SentRec) (s : Stmt)
    (st' : σ) (rows : Rows) (h : M.exec st s = .ok (st', rows)) :
    runA M ⟨st, tr⟩ s = (⟨st', tr ++ [⟨s, true⟩]⟩, none) := by
  simp [runA, exec_admin, h]

theorem runA_flush {σ} (M : StoreModel σ) (st : σ) (tr : List SentRec) :
    (runA M ⟨st, tr⟩ flushStmt).1 = ⟨flushSt M st, tr ++ [flushRec M st]⟩ := rfl

theorem strData_append (a b : String) : (a ++ b).data = a.data ++ b.data := rfl

theorem strHead_append (a b : String) (c : Char) (ha : a.data.head? = some c) :
    (a ++ b).data.head? = some c := by
  rw [strData_append]
  cases hd : a.data with
  | nil => rw [hd] at ha; exact absurd ha (by simp)
  | cons x xs =>
    rw [hd] at ha
    simpa using ha

theorem grantSql_head (plist schema u h : String) :
    (grantSql plist schema u h).data.head? = some 'G' := by
  unfold grantSql
  repeat apply strHead_append
  decide

theorem revokeSql_head (plist schema u h : String) :
    (revokeSql plist schema u h).data.head? = some 'R' := by
  unfold revokeSql
  repeat apply strHead_append
  decide

theorem dropUserSql_head (u h : String) :
    (dropUserSql u h).data.head? = some 'D' := by
  unfold dropUserSql
  repeat apply strHead_append
  decide

/-- A statement with at least one bound parameter is not the flush directive. -/
theorem stmt_ne_flush_of_params (t : String) (p : String) (ps : List String) :
    Stmt.mk t (p :: ps) ≠ flushStmt := by
  intro e
  exact List.cons_ne_nil p ps (congrArg Stmt.params e)

/-- A statement whose text does not start with `F` is not the flush directive. -/
theorem stmt_ne_flush_of_head (t : String) (ps : List String) (c : Char)
    (ht : t.data.head? = some c) (hc : c ≠ 'F') : Stmt.mk t ps ≠ flushStmt := by
  intro e
  have h2 : t = "FLUSH PRIVILEGES;" := congrArg Stmt.text e
  rw [h2] at ht
  have h3 : some 'F' = some c := by
    have hF : ("FLUSH PRIVILEGES;" : String).data.head? = some 'F' := by decide
    rw [hF] at ht
    exact ht
  exact hc (Option.some.inj h3).symm

theorem grantRevokeStmt_ne_flush (action plist schema u h : String) :
    Stmt.mk (grantRevokeSql action plist schema u h) [] ≠ flushStmt := by
  unfold grantRevokeSql
  split
  · exact stmt_ne_flush_of_head _ _ 'G' (grantSql_head plist schema u h) (by decide)
  · exact stmt_ne_flush_of_head _ _ 'R' (revokeSql_head plist schema u h) (by decide)

theorem dropStmt_ne_flush (u h : String) :
    Stmt.mk (dropUserSql u h) [] ≠ flushStmt :=
  stmt_ne_flush_of_head _ _ 'D' (dropUserSql_head u h) (by decide)

theorem createUserStmt_ne_flush (u h pw : String) :
    createUserStmt u h pw ≠ flushStmt :=
  stmt_ne_flush_of_params _ pw []

theorem alterUserStmt_ne_flush (u h pw : String) :
    alterUserStmt u h pw ≠ flushStmt :=
  stmt_ne_flush_of_params _ pw []

/-- Any statement produced by `presetGrantSql` is a GRANT, hence not the
flush directive. -/
theorem presetStmt_ne_flush (preset schema u h g : String)
    (hg : presetGrantSql preset schema u h = some g) :
    Stmt.mk g [] ≠ flushStmt := by
  unfold presetGrantSql at hg
  split at hg
  · exact Option.some.inj hg ▸
      stmt_ne_flush_of_head _ [] 'G' (grantSql_head "SELECT" schema u h) (by decide)
  · split at hg
    · exact Option.some.inj hg ▸ stmt_ne_flush_of_head _ [] 'G'
        (grantSql_head "SELECT, INSERT, UPDATE, DELETE, EXECUTE" schema u h) (by decide)
    · split at hg
      · exact Option.some.inj hg ▸ stmt_ne_flush_of_head _ [] 'G'
          (grantSql_head "ALL PRIVILEGES" schema u h) (by decide)
      · cases hg

/-! Branch characterizations of the four handlers. -/

theorem createUserHandler_reject {σ} (M : StoreModel σ) (st0 : σ)
    (new_user new_host new_password preset schema : String)
    (hv : sanitize_user new_user = "" ∨ new_password = "") :
    createUserHandler M st0 new_user new_host new_password preset schema =
      (⟨st0, []⟩, [.error "Username and password are required."]) := by
  unfold createUserHandler
  rw [if_pos hv]

theorem createUserHandler_createFail {σ} (M : StoreModel σ) (st0 : σ)
    (new_user new_host new_password preset schema e : String)
    (hv : ¬ (sanitize_user new_user = "" ∨ new_password = ""))
    (hex : M.exec st0 (createUserStmt (sanitize_user new_user)
             (effective_host new_host) new_password) = .error e) :
    createUserHandler M st0 new_user new_host new_password preset schema =
      (⟨st0, [⟨createUserStmt (sanitize_user new_user)
                (effective_host new_host) new_password, false⟩]⟩,
       [.error ("CREATE USER failed: " ++ e)]) := by
  unfold createUserHandler
  rw [if_neg hv, runA_error M st0 [] _ e hex]
  rfl

theorem createUserHandler_grantFail {σ} (M : StoreModel σ) (st0 st1 : σ)
    (new_user new_host new_password preset schema g e : String) (rows : Rows)
    (hv : ¬ (sanitize_user new_user = "" ∨ new_password = ""))
    (hex : M.exec st0 (createUserStmt (sanitize_user new_user)
             (effective_host new_host) new_password) = .ok (st1, rows))
    (hg : presetGrantSql preset schema (sanitize_user new_user)
            (effective_host new_host) = some g)
    (he : M.exec st1 ⟨g, []⟩ = .error e) :
    createUserHandler M st0 new_user new_host new_password preset schema =
      (⟨st1, [⟨createUserStmt (sanitize_user new_user)
                (effective_host new_host) new_password, true⟩, ⟨⟨g, []⟩, false⟩]⟩,
       [.success ("User `" ++ sanitize_user new_user ++ "`@'" ++
          effective_host new_host ++ "' created."),
        .error ("Grant failed: " ++ e)]) := by
  unfold createUserHandler
  rw [if_neg hv, runA_ok M st0 [] _ st1 rows hex, hg]
  dsimp only [List.nil_append]
  rw [runA_error M st1 [⟨createUserStmt (sanitize_user new_user)
      (effective_host new_host) new_password, true⟩] _ e he]
  rfl

theorem createUserHandler_grantOk {σ} (M : StoreModel σ) (st0 st1 st2 : σ)
    (new_user new_host new_password preset schema g : String) (rows rows2 : Rows)
    (hv : ¬ (sanitize_user new_user = "" ∨ new_password = ""))
    (hex : M.exec st0 (createUserStmt (sanitize_user new_user)
             (effective_host new_host) new_password) = .ok (st1, rows))
    (hg : presetGrantSql preset schema (sanitize_user new_user)
            (effective_host new_host) = some g)
    (he : M.exec st1 ⟨g, []⟩ = .ok (st2, rows2)) :
    createUserHandler M st0 new_user new_host new_password preset schema =
      (⟨flushSt M st2,
        [⟨createUserStmt (sanitize_user new_user)
            (effective_host new_host) new_password, true⟩, ⟨⟨g, []⟩, true⟩,
         flushRec M st2]⟩,
       [.success ("User `" ++ sanitize_user new_user ++ "`@'" ++
          effective_host new_host ++ "' created."),
        .success ("Preset '" ++ preset ++ "' applied on `" ++ schema ++ "`.*")]) := by
  unfold createUserHandler
  rw [if_neg hv, runA_ok M st0 [] _ st1 rows hex, hg]
  dsimp only [List.nil_append]
  rw [runA_ok M st1 [⟨createUserStmt (sanitize_user new_user)
      (effective_host new_host) new_password, true⟩] _ st2 rows2 he]
  rfl

theorem createUserHandler_noPreset {σ} (M : StoreModel σ) (st0 st1 : σ)
    (new_user new_host new_password preset schema : String) (rows : Rows)
    (hv : ¬ (sanitize_user new_user = "" ∨ new_password = ""))
    (hex : M.exec st0 (createUserStmt (sanitize_user new_user)
             (effective_host new_host) new_password) = .ok (st1, rows))
    (hg : presetGrantSql preset schema (sanitize_user new_user)
            (effective_host new_host) = none) :
    createUserHandler M st0 new_user new_host new_password preset schema =
      (⟨flushSt M st1,
        [⟨createUserStmt (sanitize_user new_user)
            (effective_host new_host) new_password, true⟩, flushRec M st1]⟩,
       [.success ("User `" ++ sanitize_user new_user ++ "`@'" ++
          effective_host new_host ++ "' created."),
        .success ("Preset '" ++ preset ++ "' applied on `" ++ schema ++ "`.*")]) := by
  unfold createUserHandler
  rw [if_neg hv, runA_ok M st0 [] _ st1 rows hex, hg]
  rfl

theorem changePasswordHandler_reject {σ} (M : StoreModel σ) (st0 : σ)
    (ch_user ch_host ch_pass : String)
    (hv : sanitize_user ch_user = "" ∨ ch_pass = "") :
    changePasswordHandler M st0 ch_user ch_host ch_pass =
      (⟨st0, []⟩, [.error "User and new password are required."]) := by
  unfold changePasswordHandler
  rw [if_pos hv]

theorem changePasswordHandler_fail {σ} (M : StoreModel σ) (st0 : σ)
    (ch_user ch_host ch_pass e : String)
    (hv : ¬ (sanitize_user ch_user = "" ∨ ch_pass = ""))
    (hex : M.exec st0 (alterUserStmt (sanitize_user ch_user)
             (effective_host ch_host) ch_pass) = .error e) :
    changePasswordHandler M st0 ch_user ch_host ch_pass =
      (⟨st0, [⟨alterUserStmt (sanitize_user ch_user)
                (effective_host ch_host) ch_pass, false⟩]⟩,
       [.error ("ALTER USER failed: " ++ e)]) := by
  unfold changePasswordHandler
  rw [if_neg hv, runA_error M st0 [] _ e hex]
  rfl

theorem changePasswordHandler_ok {σ} (M : StoreModel σ) (st0 st1 : σ)
    (ch_user ch_host ch_pass : String) (rows : Rows)
    (hv : ¬ (sanitize_user ch_user = "" ∨ ch_pass = ""))
    (hex : M.exec st0 (alterUserStmt (sanitize_user ch_user)
             (effective_host ch_host) ch_pass) = .ok (st1, rows)) :
    changePasswordHandler M st0 ch_user ch_host ch_pass =
      (⟨flushSt M st1,
        [⟨alterUserStmt (sanitize_user ch_user)
            (effective_host ch_host) ch_pass, true⟩, flushRec M st1]⟩,
       [.success ("Password updated for `" ++ sanitize_user ch_user ++ "`@'" ++
          effective_host ch_host ++ "'.")]) := by
  unfold changePasswordHandler
  rw [if_neg hv, runA_ok M st0 [] _ st1 rows hex]
  rfl

theorem grantRevokeHandler_reject {σ} (M : StoreModel σ) (st0 : σ)
    (gr_user gr_host action : String) (privs : List String) (schema : String)
    (hv : sanitize_user gr_user = "" ∨ privs = []) :
    grantRevokeHandler M st0 gr_user gr_host action privs schema =
      (⟨st0, []⟩, [.error "User and at least one privilege are required."]) := by
  unfold grantRevokeHandler
  rw [if_pos hv]

theorem grantRevokeHandler_fail {σ} (M : StoreModel σ) (st0 : σ)
    (gr_user gr_host action : String) (privs : List String) (schema e : String)
    (hv : ¬ (sanitize_user gr_user = "" ∨ privs = []))
    (hex : M.exec st0 ⟨grantRevokeSql action (strJoin ", " privs) schema
             (sanitize_user gr_user) (effective_host gr_host), []⟩ = .error e) :
    grantRevokeHandler M st0 gr_user gr_host action privs schema =
      (⟨st0, [⟨⟨grantRevokeSql action (strJoin ", " privs) schema
                (sanitize_user gr_user) (effective_host gr_host), []⟩, false⟩]⟩,
       [.error (action ++ " failed: " ++ e)]) := by
  unfold grantRevokeHandler
  rw [if_neg hv, runA_error M st0 [] _ e hex]
  rfl

theorem grantRevokeHandler_ok {σ} (M : StoreModel σ) (st0 st1 : σ)
    (gr_user gr_host action : String) (privs : List String) (schema : String)
    (rows : Rows)
    (hv : ¬ (sanitize_user gr_user = "" ∨ privs = []))
    (hex : M.exec st0 ⟨grantRevokeSql action (strJoin ", " privs) schema
             (sanitize_user gr_user) (effective_host gr_host), []⟩ = .ok (st1, rows)) :
    grantRevokeHandler M st0 gr_user gr_host action privs schema =
      (⟨flushSt M st1,
        [⟨⟨grantRevokeSql action (strJoin ", " privs) schema
            (sanitize_user gr_user) (effective_host gr_host), []⟩, true⟩,
         flushRec M st1]⟩,
       [.success (action ++ " successful for `" ++ sanitize_user gr_user ++ "`@'" ++
          effective_host gr_host ++ "` on `" ++ schema ++ "`.*")]) := by
  unfold grantRevokeHandler
  rw [if_neg hv, runA_ok M st0 [] _ st1 rows hex]
  rfl

theorem dropUserHandler_reject {σ} (M : StoreModel σ) (st0 : σ)
    (del_user del_host : String) (hv : sanitize_user del_user = "") :
    dropUserHandler M st0 del_user del_host =
      (⟨st0, []⟩, [.error "User is required."]) := by
  unfold dropUserHandler
  rw [if_pos hv]

theorem dropUserHandler_fail {σ} (M : StoreModel σ) (st0 : σ)
    (del_user del_host e : String)
    (hv : ¬ sanitize_user del_user = "")
    (hex : M.exec st0 ⟨dropUserSql (sanitize_user del_user)
             (effective_host del_host), []⟩ = .error e) :
    dropUserHandler M st0 del_user del_host =
      (⟨st0, [⟨⟨dropUserSql (sanitize_user del_user)
                (effective_host del_host), []⟩, false⟩]⟩,
       [.error ("DROP USER failed: " ++ e)]) := by
  unfold dropUserHandler
  rw [if_neg hv, runA_error M st0 [] _ e hex]
  rfl

theorem dropUserHandler_ok {σ} (M : StoreModel σ) (st0 st1 : σ)
    (del_user del_host : String) (rows : Rows)
    (hv : ¬ sanitize_user del_user = "")
    (hex : M.exec st0 ⟨dropUserSql (sanitize_user del_user)
             (effective_host del_host), []⟩ = .ok (st1, rows)) :
    dropUserHandler M st0 del_user del_host =
      (⟨flushSt M st1,
        [⟨⟨dropUserSql (sanitize_user del_user)
            (effective_host del_host), []⟩, true⟩, flushRec M st1]⟩,
       [.success ("User `" ++ sanitize_user del_user ++ "`@'" ++
          effective_host del_host ++ "' dropped.")]) := by
  unfold dropUserHandler
  rw [if_neg hv, runA_ok M st0 [] _ st1 rows hex]
  rfl

/-! Flush-discipline predicates on execution traces. -/

/-- The record is the cache-invalidation directive. -/
def isFlush (r : SentRec) : Bool := r.stmt == flushStmt

/-- Every flush record in the trace is the final record and is preceded only
by records of statements that succeeded. -/
def flushDisciplined : List SentRec → Bool
  | [] => true
  | r :: tr =>
    if isFlush r then tr.isEmpty
    else if r.ok then flushDisciplined tr
    else tr.all fun r' => !(isFlush r')

/-- The flush discipline of one handler call's trace: any flush is last and
follows only successes, and when the call sent at least one statement and
every non-flush (i.e. mutating) statement succeeded, exactly one flush was
sent. -/
def FlushOncePolicy (tr : List SentRec) : Prop :=
  flushDisciplined tr = true ∧
  (tr ≠ [] → (tr.all fun r => isFlush r || r.ok) = true →
    (tr.filter isFlush).length = 1)

theorem flushPolicy_nil : FlushOncePolicy [] :=
  ⟨rfl, fun h _ => absurd rfl h⟩

theorem flushPolicy_fail (s : Stmt) (h : s ≠ flushStmt) :
    FlushOncePolicy [⟨s, false⟩] := by
  constructor
  · simp [flushDisciplined, isFlush, h]
  · intro _ hall
    simp [isFlush, h] at hall

theorem flushPolicy_okflush (s : Stmt) (h : s ≠ flushStmt) (b : Bool) :
    FlushOncePolicy [⟨s, true⟩, ⟨flushStmt, b⟩] := by
  constructor
  · simp [flushDisciplined, isFlush, h]
  · intro _ _
    have h2 : (s == flushStmt) = false := beq_eq_false_iff_ne.mpr h
    simp [List.filter, isFlush, h2]

theorem flushPolicy_okfail (s t : Stmt) (hs : s ≠ flushStmt) (ht : t ≠ flushStmt) :
    FlushOncePolicy [⟨s, true⟩, ⟨t, false⟩] := by
  constructor
  · simp [flushDisciplined, isFlush, hs, ht]
  · intro _ hall
    simp [isFlush, hs, ht] at hall

theorem flushPolicy_okokflush (s t : Stmt) (hs : s ≠ flushStmt)
    (ht : t ≠ flushStmt) (b : Bool) :
    FlushOncePolicy [⟨s, true⟩, ⟨t, true⟩, ⟨flushStmt, b⟩] := by
  constructor
  · simp [flushDisciplined, isFlush, hs, ht]
  · intro _ _
    have hs2 : (s == flushStmt) = false := beq_eq_false_iff_ne.mpr hs
    have ht2 : (t == flushStmt) = false := beq_eq_false_iff_ne.mpr ht
    simp [List.filter, isFlush, hs2, ht2]

/-! The claims. -/

/-- Claim C1: refuted by the describe-grants operation.  `get_grants`
(line 56) interpolates the raw `user` and `host` into the SHOW GRANTS
statement without calling `sanitize_user`/`sanitize_host`: for the user
input consisting of `x` followed by a backtick, the built statement embeds
the raw name verbatim (its backtick included, closing the quoted
identifier), differs from the statement a sanitized name would give, and
the raw input contains a character that neither allow-list accepts.  The
five mutating handlers do sanitize, so the claim fails only here. -/
theorem C1_describe_grants_skips_sanitizer :
    get_grants_sql "x`" "%" = "SHOW GRANTS FOR `x``@'%';" ∧
    sanitize_user "x`" = "x" ∧
    get_grants_sql "x`" "%" ≠ get_grants_sql (sanitize_user "x`") (sanitize_host "%") ∧
    (∃ c ∈ ("x`" : String).data, isUserChar c = false ∧ isHostChar c = false) := by
  decide

/-- Claim C3: the secret never reaches the statement text.  For the CREATE
USER and ALTER USER statements the handlers build, the text is one and the
same for any two secrets (all other inputs equal), and the secret is passed
only as the single bound parameter. -/
theorem C3_secret_only_bound_parameter (u h p1 p2 : String) :
    (createUserStmt u h p1).text = (createUserStmt u h p2).text ∧
    (createUserStmt u h p1).params = [p1] ∧
    (alterUserStmt u h p1).text = (alterUserStmt u h p2).text ∧
    (alterUserStmt u h p1).params = [p1] :=
  ⟨rfl, rfl, rfl, rfl⟩

/-- Claim C4: for every string `s`, `sanitize_user s` contains only
characters of the `[A-Za-z0-9_]` allow-list and is a subsequence of `s`
(relative order preserved), and `sanitize_host s` contains only characters
of `[A-Za-z0-9_%.:-]` and is a subsequence of `s`.  Both are plain total
functions, so they never fail (they may return the empty string). -/
theorem C4_sanitizers_allowlist_and_subsequence (s : String) :
    (∀ c ∈ (sanitize_user s).data, isUserChar c = true) ∧
    List.Sublist (sanitize_user s).data s.data ∧
    (∀ c ∈ (sanitize_host s).data, isHostChar c = true) ∧
    List.Sublist (sanitize_host s).data s.data := by
  refine ⟨?_, ?_, ?_, ?_⟩
  · intro c hc
    exact List.of_mem_filter hc
  · exact List.filter_sublist s.data
  · intro c hc
    exact List.of_mem_filter hc
  · exact List.filter_sublist s.data

/-- Claim C4, witnessed at a concrete input: `"a b!"` sanitizes to a string
whose first character is allow-listed and which is a subsequence of the
input. -/
theorem C4_sanitizers_witness :
    isUserChar 'a' = true ∧
    List.Sublist (sanitize_user "a b!").data ("a b!" : String).data := by
  constructor
  · exact (C4_sanitizers_allowlist_and_subsequence "a b!").1 'a' (by decide)
  · exact (C4_sanitizers_allowlist_and_subsequence "a b!").2.1

/-- Claim C5: the CreateUser operation for `app_user`@`%` with secret `p`
and the Read-only preset on schema `asi` sends exactly the CREATE USER
statement (secret bound, not in the text) followed by
`GRANT SELECT ON backquote-asi.* TO app_user@'%'`, in that order; with
preset `None` it sends only the CREATE USER statement and no grant.  The
trailing `FLUSH PRIVILEGES;` record is the executor's cache-invalidation
directive (claim C9), not a statement of the intent itself. -/
theorem C5_create_user_statement_sequence :
    (createUserHandler logStore ([] : List Stmt) "app_user" "%" "p"
        "Read-only (SELECT)" "asi").1.sent =
      [⟨⟨"CREATE USER `app_user`@'%' IDENTIFIED BY %s;", ["p"]⟩, true⟩,
       ⟨⟨"GRANT SELECT ON `asi`.* TO `app_user`@'%';", []⟩, true⟩,
       ⟨flushStmt, true⟩] ∧
    (createUserHandler logStore ([] : List Stmt) "app_user" "%" "p"
        "None" "asi").1.sent =
      [⟨⟨"CREATE USER `app_user`@'%' IDENTIFIED BY %s;", ["p"]⟩, true⟩,
       ⟨flushStmt, true⟩] := by
  decide

/-- Claim C10: every handler replaces an empty raw host by `%` before
sanitization (`sanitize_host(x or "%")`), so the built statement addresses
host `'%'`; a non-empty host that sanitizes to the empty string (here `/`)
is not rejected and is interpolated as an empty host. -/
theorem C10_empty_host_defaults_to_percent :
    effective_host "" = "%" ∧
    effective_host "/" = "" ∧
    (dropUserHandler logStore ([] : List Stmt) "u" "").1.sent.map SentRec.stmt =
      [⟨"DROP USER `u`@'%';", []⟩, flushStmt] ∧
    (dropUserHandler logStore ([] : List Stmt) "u" "/").1.sent.map SentRec.stmt =
      [⟨"DROP USER `u`@'';", []⟩, flushStmt] ∧
    (createUserHandler logStore ([] : List Stmt) "u" "" "p" "None" "asi").1.sent.map
        SentRec.stmt =
      [⟨"CREATE USER `u`@'%' IDENTIFIED BY %s;", ["p"]⟩, flushStmt] ∧
    (changePasswordHandler logStore ([] : List Stmt) "u" "" "p").1.sent.map
        SentRec.stmt =
      [⟨"ALTER USER `u`@'%' IDENTIFIED BY %s;", ["p"]⟩, flushStmt] ∧
    (grantRevokeHandler logStore ([] : List Stmt) "u" "" "GRANT" ["SELECT"]
        "asi").1.sent.map SentRec.stmt =
      [⟨"GRANT SELECT ON `asi`.* TO `u`@'%';", []⟩, flushStmt] := by
  decide

/-- Claim C2: refuted for multi-statement units.  On a store that accepts
CREATE USER and rejects GRANT, the create-with-preset unit (lines 122-141)
ends with the store holding the committed CREATE USER statement - not the
state from before the unit began - even though its second statement raised
a store error; the handler reports the creation success and the grant
failure.  Each statement runs in its own `exec_admin` transaction, so the
unit as a whole is not rolled back. -/
theorem C2_counterexample_unit_not_rolled_back :
    (createUserHandler failOnGrantStore ([] : List Stmt) "app_user" "%" "p"
        "Read-only (SELECT)" "asi").1.store ≠ ([] : List Stmt) ∧
    (createUserHandler failOnGrantStore ([] : List Stmt) "app_user" "%" "p"
        "Read-only (SELECT)" "asi").2 =
      [.success "User `app_user`@'%' created.",
       .error "Grant failed: grant denied"] := by
  decide

/-- Claim C2 (amended): the admin executor runs one statement per call, each
in its own transaction.  When a statement raises a store-level error, that
statement alone is rolled back (`exec_admin` returns the prior state
together with the store's error text), the handler reports a failure
carrying that text and executes no statement after the failing one; but a
statement of a multi-statement unit that committed before the failure is
not undone: when CREATE USER has committed and the preset grant fails, the
final store state is the post-CREATE state, not the state from before the
unit began. -/
theorem C2_per_statement_rollback {σ} (M : StoreModel σ) (st0 st1 : σ)
    (user host pw preset schema e : String) (rows : Rows) :
    (∀ s fetch, M.exec st0 s = .error e →
      exec_admin M st0 s fetch = (st0, none, some e)) ∧
    (¬ (sanitize_user user = "" ∨ pw = "") →
      M.exec st0 (createUserStmt (sanitize_user user) (effective_host host) pw) =
        .error e →
      createUserHandler M st0 user host pw preset schema =
        (⟨st0, [⟨createUserStmt (sanitize_user user) (effective_host host) pw,
                 false⟩]⟩,
         [.error ("CREATE USER failed: " ++ e)])) ∧
    (∀ g, ¬ (sanitize_user user = "" ∨ pw = "") →
      M.exec st0 (createUserStmt (sanitize_user user) (effective_host host) pw) =
        .ok (st1, rows) →
      presetGrantSql preset schema (sanitize_user user) (effective_host host) =
        some g →
      M.exec st1 ⟨g, []⟩ = .error e →
      (createUserHandler M st0 user host pw preset schema).1.store = st1) := by
  refine ⟨?_, ?_, ?_⟩
  · intro s fetch h
    simp [exec_admin, h]
  · intro hv hex
    exact createUserHandler_createFail M st0 user host pw preset schema e hv hex
  · intro g hv hex hg he
    rw [createUserHandler_grantFail M st0 st1 user host pw preset schema g e rows
      hv hex hg he]

/-- Claim C2's amended theorem, applied on the all-failing store at concrete
inputs: the failing CREATE USER is rolled back, its error text is reported,
and nothing is sent after it. -/
theorem C2_per_statement_rollback_witness :
    createUserHandler failStore ([] : List Stmt) "u" "%" "p" "None" "asi" =
      (⟨[], [⟨createUserStmt "u" "%" "p", false⟩]⟩,
       [.error "CREATE USER failed: boom"]) := by
  exact (C2_per_statement_rollback failStore ([] : List Stmt) [] "u" "%" "p"
    "None" "asi" "boom" []).2.1 (by decide) rfl

/-- Claim C7: when the CREATE USER statement has succeeded and the preset
grant statement then fails, the caller is shown two distinct messages, one
stating the user was created and one stating the grant failed with the
store's error text - not a single generic failure. -/
theorem C7_create_then_grant_failure_distinguished {σ} (M : StoreModel σ)
    (st0 st1 : σ) (user host pw preset schema g e : String) (rows : Rows)
    (hv : ¬ (sanitize_user user = "" ∨ pw = ""))
    (hg : presetGrantSql preset schema (sanitize_user user) (effective_host host) =
      some g)
    (hc : M.exec st0 (createUserStmt (sanitize_user user) (effective_host host) pw) =
      .ok (st1, rows))
    (he : M.exec st1 ⟨g, []⟩ = .error e) :
    (createUserHandler M st0 user host pw preset schema).2 =
      [UiMsg.success ("User `" ++ sanitize_user user ++ "`@'" ++
          effective_host host ++ "' created."),
       UiMsg.error ("Grant failed: " ++ e)] := by
  rw [createUserHandler_grantFail M st0 st1 user host pw preset schema g e rows
    hv hc hg he]

/-- Claim C7, applied on the store that rejects GRANT statements, at the
concrete Read-only create: the reported messages distinguish the committed
creation from the failed grant. -/
theorem C7_distinguished_witness :
    (createUserHandler failOnGrantStore ([] : List Stmt) "app_user" "%" "p"
        "Read-only (SELECT)" "asi").2 =
      [UiMsg.success "User `app_user`@'%' created.",
       UiMsg.error "Grant failed: grant denied"] := by
  exact C7_create_then_grant_failure_distinguished failOnGrantStore
    ([] : List Stmt) [createUserStmt "app_user" "%" "p"] "app_user" "%" "p"
    "Read-only (SELECT)" "asi" (grantSql "SELECT" "asi" "app_user" "%")
    "grant denied" [] (by decide) (by decide) rfl rfl

/-- Claim C8: when the sanitized principal name is empty, each of the four
handlers reports a validation error with an unchanged store and an empty
trace - no statement is built or sent; likewise the grant/revoke handler
when the privilege list is empty. -/
theorem C8_validation_before_any_statement {σ} (M : StoreModel σ) (st0 : σ)
    (user host pw preset schema action : String) (privs : List String) :
    (sanitize_user user = "" →
      createUserHandler M st0 user host pw preset schema =
        (⟨st0, []⟩, [.error "Username and password are required."]) ∧
      changePasswordHandler M st0 user host pw =
        (⟨st0, []⟩, [.error "User and new password are required."]) ∧
      grantRevokeHandler M st0 user host action privs schema =
        (⟨st0, []⟩, [.error "User and at least one privilege are required."]) ∧
      dropUserHandler M st0 user host =
        (⟨st0, []⟩, [.error "User is required."])) ∧
    (privs = [] →
      grantRevokeHandler M st0 user host action privs schema =
        (⟨st0, []⟩, [.error "User and at least one privilege are required."])) := by
  constructor
  · intro hu
    refine ⟨?_, ?_, ?_, ?_⟩
    · exact createUserHandler_reject M st0 user host pw preset schema (Or.inl hu)
    · exact changePasswordHandler_reject M st0 user host pw (Or.inl hu)
    · exact grantRevokeHandler_reject M st0 user host action privs schema
        (Or.inl hu)
    · exact dropUserHandler_reject M st0 user host hu
  · intro hp
    exact grantRevokeHandler_reject M st0 user host action privs schema
      (Or.inr hp)

/-- Claim C8, applied at concrete inputs: the name `!` sanitizes to the
empty string and drop-user rejects it without sending anything; an empty
privilege list is likewise rejected before anything reaches the store. -/
theorem C8_validation_witness :
    dropUserHandler logStore ([] : List Stmt) "!" "%" =
      (⟨[], []⟩, [.error "User is required."]) ∧
    grantRevokeHandler logStore ([] : List Stmt) "u" "%" "GRANT" [] "asi" =
      (⟨[], []⟩, [.error "User and at least one privilege are required."]) := by
  constructor
  · exact ((C8_validation_before_any_statement logStore ([] : List Stmt) "!" "%"
      "p" "None" "asi" "GRANT" ["SELECT"]).1 (by decide)).2.2.2
  · exact (C8_validation_before_any_statement logStore ([] : List Stmt) "u" "%"
      "p" "None" "asi" "GRANT" []).2 rfl

/-- Claim C6: granting `SELECT, INSERT` to `u`@`%` on schema `asi` sends
exactly one GRANT statement, `GRANT SELECT, INSERT ON backquote-asi.* TO
u@'%'` (the trailing flush record is the cache directive of claim C9); and
on any store, for any accepted inputs, the first statement the grant
handler sends renders the privilege list comma-joined in the order given. -/
theorem C6_privileges_comma_joined_in_order {σ} (M : StoreModel σ) (st0 : σ)
    (gr_user gr_host schema : String) (privs : List String) :
    (grantRevokeHandler logStore ([] : List Stmt) "u" "%" "GRANT"
        ["SELECT", "INSERT"] "asi").1.sent.map SentRec.stmt =
      [⟨"GRANT SELECT, INSERT ON `asi`.* TO `u`@'%';", []⟩, flushStmt] ∧
    (¬ sanitize_user gr_user = "" → ¬ privs = [] →
      ((grantRevokeHandler M st0 gr_user gr_host "GRANT" privs schema).1.sent.map
          SentRec.stmt).head? =
        some ⟨grantSql (strJoin ", " privs) schema (sanitize_user gr_user)
                (effective_host gr_host), []⟩) := by
  constructor
  · decide
  · intro hu hp
    have hv : ¬ (sanitize_user gr_user = "" ∨ privs = []) := fun hor => hor.elim hu hp
    rcases hex : M.exec st0 ⟨grantRevokeSql "GRANT" (strJoin ", " privs) schema
        (sanitize_user gr_user) (effective_host gr_host), []⟩ with e | ⟨st1, rows⟩
    · rw [grantRevokeHandler_fail M st0 gr_user gr_host "GRANT" privs schema e hv hex]
      rfl
    · rw [grantRevokeHandler_ok M st0 st1 gr_user gr_host "GRANT" privs schema rows
        hv hex]
      rfl

/-- Claim C6, applied at concrete inputs with the privileges given in the
non-default order `INSERT, SELECT`: the rendered list preserves that order. -/
theorem C6_order_witness :
    ((grantRevokeHandler logStore ([] : List Stmt) "u2" "%" "GRANT"
        ["INSERT", "SELECT"] "asi").1.sent.map SentRec.stmt).head? =
      some ⟨"GRANT INSERT, SELECT ON `asi`.* TO `u2`@'%';", []⟩ := by
  exact (C6_privileges_comma_joined_in_order logStore ([] : List Stmt) "u2" "%"
    "asi" ["INSERT", "SELECT"]).2 (by decide) (by decide)

/-- Claim C9: for every store and all inputs, each handler's trace sends the
`FLUSH PRIVILEGES` cache-invalidation directive only as its final statement,
preceded only by statements that succeeded, and whenever the call sent at
least one statement and every mutating (non-flush) statement succeeded, the
directive is sent exactly once. -/
theorem C9_flush_exactly_once_after_success {σ} (M : StoreModel σ) (st0 : σ)
    (user host pw preset schema action : String) (privs : List String) :
    FlushOncePolicy (createUserHandler M st0 user host pw preset schema).1.sent ∧
    FlushOncePolicy (changePasswordHandler M st0 user host pw).1.sent ∧
    FlushOncePolicy (grantRevokeHandler M st0 user host action privs schema).1.sent ∧
    FlushOncePolicy (dropUserHandler M st0 user host).1.sent := by
  refine ⟨?_, ?_, ?_, ?_⟩
  · by_cases hv : sanitize_user user = "" ∨ pw = ""
    · rw [createUserHandler_reject M st0 user host pw preset schema hv]
      exact flushPolicy_nil
    · rcases hex : M.exec st0 (createUserStmt (sanitize_user user)
          (effective_host host) pw) with e | ⟨st1, rows⟩
      · rw [createUserHandler_createFail M st0 user host pw preset schema e hv hex]
        exact flushPolicy_fail _ (createUserStmt_ne_flush _ _ _)
      · cases hg : presetGrantSql preset schema (sanitize_user user)
            (effective_host host) with
        | none =>
          rw [createUserHandler_noPreset M st0 st1 user host pw preset schema rows
            hv hex hg]
          exact flushPolicy_okflush _ (createUserStmt_ne_flush _ _ _) _
        | some g =>
          rcases he : M.exec st1 ⟨g, []⟩ with e2 | ⟨st2, rows2⟩
          · rw [createUserHandler_grantFail M st0 st1 user host pw preset schema g
              e2 rows hv hex hg he]
            exact flushPolicy_okfail _ _ (createUserStmt_ne_flush _ _ _)
              (presetStmt_ne_flush preset schema _ _ g hg)
          · rw [createUserHandler_grantOk M st0 st1 st2 user host pw preset schema
              g rows rows2 hv hex hg he]
            exact flushPolicy_okokflush _ _ (createUserStmt_ne_flush _ _ _)
              (presetStmt_ne_flush preset schema _ _ g hg) _
  · by_cases hv : sanitize_user user = "" ∨ pw = ""
    · rw [changePasswordHandler_reject M st0 user host pw hv]
      exact flushPolicy_nil
    · rcases hex : M.exec st0 (alterUserStmt (sanitize_user user)
          (effective_host host) pw) with e | ⟨st1, rows⟩
      · rw [changePasswordHandler_fail M st0 user host pw e hv hex]
        exact flushPolicy_fail _ (alterUserStmt_ne_flush _ _ _)
      · rw [changePasswordHandler_ok M st0 st1 user host pw rows hv hex]
        exact flushPolicy_okflush _ (alterUserStmt_ne_flush _ _ _) _
  · by_cases hv : sanitize_user user = "" ∨ privs = []
    · rw [grantRevokeHandler_reject M st0 user host action privs schema hv]
      exact flushPolicy_nil
    · rcases hex : M.exec st0 ⟨grantRevokeSql action (strJoin ", " privs) schema
          (sanitize_user user) (effective_host host), []⟩ with e | ⟨st1, rows⟩
      · rw [grantRevokeHandler_fail M st0 user host action privs schema e hv hex]
        exact flushPolicy_fail _ (grantRevokeStmt_ne_flush _ _ _ _ _)
      · rw [grantRevokeHandler_ok M st0 st1 user host action privs schema rows
          hv hex]
        exact flushPolicy_okflush _ (grantRevokeStmt_ne_flush _ _ _ _ _) _
  · by_cases hv : sanitize_user user = ""
    · rw [dropUserHandler_reject M st0 user host hv]
      exact flushPolicy_nil
    · rcases hex : M.exec st0 ⟨dropUserSql (sanitize_user user)
          (effective_host host), []⟩ with e | ⟨st1, rows⟩
      · rw [dropUserHandler_fail M st0 user host e hv hex]
        exact flushPolicy_fail _ (dropStmt_ne_flush _ _)
      · rw [dropUserHandler_ok M st0 st1 user host rows hv hex]
        exact flushPolicy_okflush _ (dropStmt_ne_flush _ _) _

/-- Claim C9, applied at a concrete successful drop-user call: the trace
contains the cache-invalidation directive exactly once. -/
theorem C9_flush_witness :
    ((dropUserHandler logStore ([] : List Stmt) "u" "%").1.sent.filter
        isFlush).length = 1 := by
  exact (C9_flush_exactly_once_after_success logStore ([] : List Stmt) "u" "%"
    "p" "None" "asi" "GRANT" ["SELECT"]).2.2.2.2 (by decide) (by decide)

end UsersPage
